import Mathlib

/-!
Shallow embedding of the segment-to-timeline assembly pipeline of the
youtube-automation repository (src/transcribe.py, src/main.py,
src/download_assets.py, src/video_builder.py), together with theorems
settling the specification claims about it.

Durations and frame arithmetic are modelled over the rationals; external
collaborators (HTTP providers, the font engine, the random source, the
media decoder) are parameters of the embedded functions.
-/

namespace YTAuto

/-- Segment (transcribe.py lines 20-26): a timed text segment.  The source
field named end is called stop here because end is a Lean keyword. -/
structure Segment where
  idx : Nat
  start : ℚ
  stop : ℚ
  text : String
deriving Repr, DecidableEq

/-- Segment.dur (transcribe.py lines 28-30): duration clamped below by 0.1 s. -/
def Segment.dur (s : Segment) : ℚ := max (1/10) (s.stop - s.start)

/-- One step of the minimum-duration clamp pass (main.py lines 166-169):
a segment whose raw length is below the minimum is rebuilt with its end
pushed to start + min_seg; all other fields are copied. -/
def clamp_segment (min_seg : ℚ) (s : Segment) : Segment :=
  if s.stop - s.start < min_seg then ⟨s.idx, s.start, s.start + min_seg, s.text⟩ else s

/-- The pipeline-level clamp pass over the segment list (main.py lines 163-170). -/
def clamp_min_seg (min_seg : ℚ) (segs : List Segment) : List Segment :=
  segs.map (clamp_segment min_seg)

/-- Python str.strip(): drop leading and trailing whitespace. -/
def py_strip (s : String) : String :=
  String.mk (((s.data.dropWhile Char.isWhitespace).reverse.dropWhile Char.isWhitespace).reverse)

/-- Splits a character list on whitespace runs, accumulating the current word
reversed; empty pieces are dropped, as Python str.split() does. -/
def split_words_aux : List Char → List Char → List (List Char)
  | [], cur => if cur = [] then [] else [cur.reverse]
  | c :: rest, cur =>
    if c.isWhitespace then
      if cur = [] then split_words_aux rest [] else cur.reverse :: split_words_aux rest []
    else split_words_aux rest (c :: cur)

/-- Python str.split() with no separator: split on whitespace runs, dropping
empty pieces. -/
def py_split (s : String) : List String := (split_words_aux s.data []).map String.mk

/-- Outcome of one provider search call: a returned URL list, or a raised
exception. -/
inductive SearchOutcome where
  | ok (urls : List String)
  | raised
deriving Repr, DecidableEq

/-- A stock provider, abstracted as the outcome its search yields per query. -/
abbrev Provider := String → SearchOutcome

/-- Python exception values relevant to the embedded code. -/
inductive PyErr where
  | typeError
  | indexError
  | sourceError
deriving Repr, DecidableEq

/-- Python list indexing: urls[i] raises IndexError when out of range. -/
def pyIndex (l : List String) (i : Nat) : Except PyErr String :=
  match l[i]? with
  | some x => Except.ok x
  | none => Except.error PyErr.indexError

/-- Body of one try block in fetch_asset_url: run the provider's search and,
when the returned list is truthy, return its first element with the tier's
tag; an exception from the search surfaces as an error here, to be caught by
the except clause. -/
def fetch_tier_body (query : String) (p : Provider) (tag : String) :
    Except PyErr (Option (Option String × String)) :=
  match p query with
  | SearchOutcome.raised => Except.error PyErr.sourceError
  | SearchOutcome.ok urls =>
    if urls ≠ [] then
      match pyIndex urls 0 with
      | Except.error e => Except.error e
      | Except.ok u => Except.ok (some (some u, tag))
    else Except.ok none

/-- Models try body except Exception: a raised error is logged and swallowed
in the source, and control falls through to the next tier; a return taken
inside the try block exits the function. -/
def tryExceptContinue (body : Except PyErr (Option (Option String × String)))
    (next : Except PyErr (Option String × String)) :
    Except PyErr (Option String × String) :=
  match body with
  | Except.error _ => next
  | Except.ok none => next
  | Except.ok (some v) => Except.ok v

/-- One tier of fetch_asset_url: the provider is consulted only when present,
its try block is guarded, and control otherwise falls through. -/
def fetch_tier (query : String) (po : Option Provider) (tag : String)
    (next : Except PyErr (Option String × String)) :
    Except PyErr (Option String × String) :=
  match po with
  | none => next
  | some p => tryExceptContinue (fetch_tier_body query p tag) next

/-- fetch_asset_url (download_assets.py lines 338-376): primary video tier,
then fallback video tier, then image tier, then the (None, "none") result.
The source signature has exactly the four parameters embedded here and no
used-URL parameter; the pick is always the first element of the first
non-empty candidate list. -/
def fetch_asset_url (query : String)
    (primary fallback image_fallback : Option Provider) :
    Except PyErr (Option String × String) :=
  fetch_tier query primary "video"
    (fetch_tier query fallback "video"
      (fetch_tier query image_fallback "image"
        (Except.ok (none, "none"))))

/-- PexelsProvider.search (download_assets.py lines 38-61): the whole request,
parse and URL extraction is wrapped in try/except returning [] on any error;
the HTTP-and-parse step is abstracted as its outcome. -/
def pexels_search (httpOutcome : Except PyErr (List String)) : List String :=
  match httpOutcome with
  | Except.error _ => []
  | Except.ok urls => urls

/-- Positional arity of a Python function signature. -/
structure PySig where
  minPositional : Nat
  maxPositional : Nat
deriving Repr, DecidableEq

/-- Signature of fetch_asset_url (download_assets.py lines 338-340): query,
primary and fallback are required; image_fallback carries a default. -/
def fetch_asset_url_sig : PySig := { minPositional := 3, maxPositional := 4 }

/-- Number of positional arguments build_video passes to fetch_asset_url at
both call sites (video_builder.py lines 498 and 505): query, primary,
fallback, image_fallback, used_urls. -/
def build_video_fetch_nargs : Nat := 5

/-- Whether a call with n positional arguments matches the signature. -/
def acceptsPositional (sig : PySig) (n : Nat) : Bool :=
  decide (sig.minPositional ≤ n) && decide (n ≤ sig.maxPositional)

/-- A Python call: the interpreter raises TypeError on an arity mismatch
before the callee body runs. -/
def pyCallE {α : Type} (sig : PySig) (nargs : Nat) (body : Except PyErr α) :
    Except PyErr α :=
  if acceptsPositional sig nargs then body else Except.error PyErr.typeError

/-- A moviepy clip, abstracted to dimensions, duration and fade attributes. -/
structure Clip where
  width : Nat
  height : Nat
  duration : ℚ
  fadein : ℚ
  fadeout : ℚ
deriving Repr, DecidableEq

/-- clip.set_duration(d): pins the duration attribute to d. -/
def set_duration (c : Clip) (d : ℚ) : Clip := { c with duration := d }

/-- ensure_resolution (video_builder.py lines 300-322): cover fit resizes and
center-crops to exactly the target frame; duration is unchanged. -/
def ensure_resolution (c : Clip) (w h : Nat) : Clip := { c with width := w, height := h }

/-- clip.subclip(t0, t1): the window has duration t1 - t0. -/
def subclip (c : Clip) (t0 t1 : ℚ) : Clip := { c with duration := t1 - t0 }

/-- An RGB colour triple, for moviepy ColorClip. -/
structure ColorSpec where
  r : Nat
  g : Nat
  b : Nat
deriving Repr, DecidableEq

/-- ColorClip(size=(w, h), color=c).set_duration(dur). -/
def color_clip (w h : Nat) (_color : ColorSpec) (dur : ℚ) : Clip :=
  ⟨w, h, dur, 0, 0⟩

/-- concatenate_videoclips with method compose: durations add, the frame is
the largest member frame. -/
def concat_clips (l : List Clip) : Clip :=
  { width := (l.map Clip.width).foldl max 0,
    height := (l.map Clip.height).foldl max 0,
    duration := (l.map Clip.duration).sum,
    fadein := 0, fadeout := 0 }

/-- clip.crossfadein(d): records a leading fade of d seconds. -/
def crossfadein (c : Clip) (d : ℚ) : Clip := { c with fadein := d }

/-- clip.crossfadeout(d): records a trailing fade of d seconds. -/
def crossfadeout (c : Clip) (d : ℚ) : Clip := { c with fadeout := d }

/-- The clamped crossfade overlap for one boundary (video_builder.py lines
572-573): min of 6/fps, 0.25, a quarter of each neighbour's duration. -/
def safe_overlap (fps dprev dnext : ℚ) : ℚ :=
  min (min (min ((6 : ℚ) / fps) (1/4)) (dprev * (1/4))) (dnext * (1/4))

/-- One iteration of the transition walk (video_builder.py lines 570-578); the
accumulator holds the built sequence in reverse, so its head is seq[-1].  A
sub-frame overlap degrades to plain concatenation with no fade applied. -/
def transition_step (fps : ℚ) (acc : List Clip) (nxt : Clip) : List Clip :=
  match acc with
  | [] => [nxt]
  | a :: earlier =>
    if safe_overlap fps a.duration nxt.duration < 1 / fps then nxt :: a :: earlier
    else crossfadein nxt (safe_overlap fps a.duration nxt.duration)
          :: crossfadeout a (safe_overlap fps a.duration nxt.duration) :: earlier

/-- The full transition walk (video_builder.py lines 568-579). -/
def apply_transitions (fps : ℚ) (clips : List Clip) : List Clip :=
  (clips.foldl (transition_step fps) []).reverse

/-- How the reconciliation step adjusted the assembled timeline. -/
inductive ReconStep where
  | trimmed
  | padded (color : ColorSpec) (fill_dur : ℚ)
  | unchanged
deriving Repr, DecidableEq

/-- Final duration reconciliation against the narration (video_builder.py
lines 584-590): a longer timeline is truncated with subclip(0, total_dur), a
shorter one gets a black ColorClip of the missing duration appended, an equal
one is untouched. -/
def reconcile_duration (video : Clip) (total_dur : ℚ) (w h : Nat) : Clip × ReconStep :=
  if video.duration > total_dur then
    (subclip video 0 total_dur, ReconStep.trimmed)
  else if video.duration < total_dur then
    let padClip := color_clip w h ⟨0, 0, 0⟩ (total_dur - video.duration)
    (concat_clips [video, padClip], ReconStep.padded ⟨0, 0, 0⟩ (total_dur - video.duration))
  else (video, ReconStep.unchanged)

/-- External media facts a build consults: the three providers, download
success, video validation, decoded duration per locator, the random source
for subclip starts, and the target frame. -/
structure MediaEnv where
  primary : Option Provider
  fallback : Option Provider
  image_fallback : Option Provider
  download_ok : String → Bool
  video_valid : String → Bool
  video_duration : String → ℚ
  rand_uniform : ℚ → ℚ
  w : Nat
  h : Nat

/-- create_fallback_clip (video_builder.py lines 255-297): a gradient (or, on
failure, solid colour) still held for the requested duration at the requested
frame size. -/
def create_fallback_clip (w h : Nat) (dur : ℚ) : Clip := ⟨w, h, dur, 0, 0⟩

/-- extend_clip_to_duration (video_builder.py lines 217-252), tracked on
durations: a clip at least target long is returned unchanged; a clip under
0.5 s is freeze-extended (the moviepy freeze fx inserts a still of
freeze_duration seconds, so the result is dur + target long); otherwise the
clip is concatenated with itself int(target/dur)+1 times and cut with
subclip(0, target). -/
def extend_clip_to_duration (dur target : ℚ) : ℚ :=
  if dur ≥ target then dur
  else if dur < 1/2 then dur + target
  else target

/-- The decision taken by the cut step of the video path. -/
inductive CutChoice where
  | whole (dur : ℚ)
  | window (start len : ℚ)
deriving Repr, DecidableEq

/-- The cut step of the video path (video_builder.py lines 542-548): a base
within 0.2 s of the segment duration is used whole; a longer base yields a
random window subclip(start_t, start_t + segDur) with start_t drawn by
random.uniform(0, max_start). -/
def cut_to_segment (baseDur segDur : ℚ) (rand_uniform : ℚ → ℚ) : CutChoice :=
  if baseDur ≤ segDur + 1/5 then CutChoice.whole baseDur
  else CutChoice.window (rand_uniform (max 0 (baseDur - segDur))) segDur

/-- The clip carrying a cut decision; the decoded frame size is abstracted
since ensure_resolution overrides it. -/
def clip_of_cut (c : CutChoice) : Clip :=
  match c with
  | CutChoice.whole d => ⟨0, 0, d, 0, 0⟩
  | CutChoice.window _ len => ⟨0, 0, len, 0, 0⟩

/-- The per-segment clip construction (video_builder.py lines 507-554):
fallback, image and video paths.  Download or load failures are caught in the
source and degrade to the gradient fallback clip. -/
def segment_visual (env : MediaEnv) (seg : Segment) (url : Option String) (ty : String) : Clip :=
  match url with
  | none => create_fallback_clip env.w env.h seg.dur
  | some u =>
    if ty = "none" then create_fallback_clip env.w env.h seg.dur
    else if ty = "image" then
      if env.download_ok u then
        ensure_resolution (set_duration ⟨0, 0, 0, 0, 0⟩ seg.dur) env.w env.h
      else create_fallback_clip env.w env.h seg.dur
    else
      if ¬ env.download_ok u then create_fallback_clip env.w env.h seg.dur
      else if ¬ env.video_valid u then create_fallback_clip env.w env.h seg.dur
      else
        let d0 := env.video_duration u
        let d1 := if d0 < seg.dur then extend_clip_to_duration d0 seg.dur else d0
        ensure_resolution (clip_of_cut (cut_to_segment d1 seg.dur env.rand_uniform)) env.w env.h

/-- Subtitle compositing for one segment (video_builder.py lines 556-561):
when subtitles are on and the text renders, the clip is composed with the
overlay at the target frame size. -/
def segment_composite (env : MediaEnv) (seg : Segment) (subs : Bool) (vis : Clip) : Clip :=
  if subs then
    if seg.text = "" ∨ py_strip seg.text = "" then vis
    else { width := env.w, height := env.h, duration := max vis.duration seg.dur,
           fadein := 0, fadeout := 0 }
  else vis

/-- The clip actually appended for a segment (video_builder.py line 563):
whatever path produced it, the loop appends clip.set_duration(seg.dur). -/
def appended_clip (env : MediaEnv) (seg : Segment) (subs : Bool)
    (url : Option String) (ty : String) : Clip :=
  set_duration (segment_composite env seg subs (segment_visual env seg url ty)) seg.dur

/-- One iteration of the segment loop in build_video (video_builder.py lines
485-563).  Both fetch_asset_url call sites pass five positional arguments
against the four-parameter signature, so the interpreter's arity check stands
in front of the call body; neither call site sits inside a try block. -/
def process_segment (env : MediaEnv) (subs : Bool) (query simplified_query : String)
    (seg : Segment) : Except PyErr Clip := do
  let r ← pyCallE fetch_asset_url_sig build_video_fetch_nargs
            (fetch_asset_url query env.primary env.fallback env.image_fallback)
  let r2 ← if r.1 = none then
             pyCallE fetch_asset_url_sig build_video_fetch_nargs
               (fetch_asset_url simplified_query env.primary env.fallback env.image_fallback)
           else pure r
  pure (appended_clip env seg subs r2.1 r2.2)

/-- The segment loop of build_video: clips accumulate in order; an uncaught
exception aborts the loop and propagates. -/
def build_video_clips (env : MediaEnv) (subs : Bool) (queryOf : Segment → String)
    (simplifyOf : String → String) : List Segment → Except PyErr (List Clip)
  | [] => Except.ok []
  | seg :: rest => do
    let c ← process_segment env subs (queryOf seg) (simplifyOf (queryOf seg)) seg
    let cs ← build_video_clips env subs queryOf simplifyOf rest
    pure (c :: cs)

/-- The visual pipeline of build_video after the segment loop
(video_builder.py lines 566-590): optional transitions, concatenation,
duration reconciliation against the narration. -/
def build_video_visual (env : MediaEnv) (subs transitions : Bool) (fps : ℚ)
    (narration_dur : ℚ) (queryOf : Segment → String) (simplifyOf : String → String)
    (segs : List Segment) : Except PyErr (Clip × ReconStep) := do
  let clips ← build_video_clips env subs queryOf simplifyOf segs
  let video := if transitions then
                 if 1 < clips.length then concat_clips (apply_transitions fps clips)
                 else concat_clips clips
               else concat_clips clips
  pure (reconcile_duration video narration_dur env.w env.h)

/-- An audio clip, abstracted to duration and linear gain. -/
structure AudioTrack where
  duration : ℚ
  gain : ℚ
deriving Repr, DecidableEq

/-- audio.fx(volumex, factor): scales the gain. -/
def volumex (a : AudioTrack) (factor : ℚ) : AudioTrack := { a with gain := a.gain * factor }

/-- audio.subclip(t0, t1). -/
def audio_subclip (a : AudioTrack) (t0 t1 : ℚ) : AudioTrack := { a with duration := t1 - t0 }

/-- concatenate_audioclips of n copies of the track. -/
def loop_audio (a : AudioTrack) (n : Nat) : AudioTrack := { a with duration := n * a.duration }

/-- Result of fitting and mixing the background track: the narration passes
through unscaled, the background is loop/trim fitted then volume-scaled;
loops and looped_len record the whole-track loop count and the length before
the final trim. -/
structure BgMix where
  narration : AudioTrack
  background : AudioTrack
  loops : Nat
  looped_len : ℚ
deriving Repr, DecidableEq

/-- Background-music fitting and mixing (video_builder.py lines 606-626): a
track shorter than the video is looped int(total/dur)+1 whole times and cut
with subclip(0, total_dur); otherwise it is cut with subclip(0, total_dur);
either way volumex(music_volume) is applied and the narration is combined
unscaled. -/
def mix_background_music (narration bg : AudioTrack) (total_dur music_volume : ℚ) : BgMix :=
  if bg.duration < total_dur then
    let loops_needed : Nat := (Int.floor (total_dur / bg.duration)).toNat + 1
    let looped := loop_audio bg loops_needed
    let fitted := audio_subclip looped 0 total_dur
    { narration := narration, background := volumex fitted music_volume,
      loops := loops_needed, looped_len := looped.duration }
  else
    let fitted := audio_subclip bg 0 total_dur
    { narration := narration, background := volumex fitted music_volume,
      loops := 1, looped_len := bg.duration }

/-- Python int() on a float: truncation toward zero. -/
def pyInt (q : ℚ) : ℤ :=
  if q < 0 then -Int.floor (-q) else Int.floor q

/-- The greedy word wrap of the subtitle renderer (video_builder.py lines
342-356): words are packed into a line while the measured width of the
candidate stays within max_width; the running line and the emitted lines are
folded left over the words. -/
def wrap_lines (measure : String → ℚ) (text : String) (max_width : ℚ) : List String :=
  let step := fun (acc : List String × String) (word : String) =>
    let test := py_strip (acc.2 ++ " " ++ word)
    if measure test ≤ max_width then (acc.1, test)
    else if acc.2 ≠ "" then (acc.1 ++ [acc.2], word) else (acc.1, word)
  let r := (py_split text).foldl step ([], "")
  if r.2 ≠ "" then r.1 ++ [r.2] else r.1

/-- The active font, abstracted: measured text width per string and the
metrics pair returned by font.getmetrics(). -/
structure FontInfo where
  measure : String → ℚ
  ascent : Nat
  descent : Nat

/-- What the subtitle renderer returns: no overlay for blank text, else an
overlay box with its size and vertical anchor. -/
inductive SubtitleClip where
  | noOverlay
  | overlay (box_w box_h : ℤ) (pos_y : ℤ)
deriving Repr, DecidableEq

/-- make_subtitle_clip (video_builder.py lines 359-407) on box geometry:
blank text yields no overlay; otherwise lines are wrapped against
max(10, int(w * 0.9)), the box is the tight text bound plus 22 px padding,
width clamped to that same max_text_width, and both box dimensions are
floored at 2; the overlay anchors at int(h * 0.82). -/
def make_subtitle_clip (font : FontInfo) (text : String) (w h : Nat) : SubtitleClip :=
  if text = "" ∨ py_strip text = "" then SubtitleClip.noOverlay
  else
    let pad : ℤ := 22
    let max_text_width : ℤ := max 10 ((9 * (w : ℤ)) / 10)
    let lines := wrap_lines font.measure text (max_text_width : ℚ)
    let line_h : ℤ := max 2 ((font.ascent : ℤ) + (font.descent : ℤ))
    let gap : ℤ := max 1 (line_h / 4)
    let text_h : ℤ := max 0 ((lines.length : ℤ) * line_h + max 0 ((lines.length : ℤ) - 1) * gap)
    let text_w : ℤ := lines.foldl (fun acc ln => max acc (pyInt (font.measure ln))) 0
    let box_w : ℤ := max 2 (min max_text_width (text_w + 2 * pad))
    let box_h : ℤ := max 2 (text_h + 2 * pad)
    SubtitleClip.overlay box_w box_h ((82 * (h : ℤ)) / 100)

lemma fetch_tier_ok (q : String) (po : Option Provider) (tag : String)
    (next : Except PyErr (Option String × String)) (hn : ∃ r, next = Except.ok r) :
    ∃ r, fetch_tier q po tag next = Except.ok r := by
  obtain ⟨r, hr⟩ := hn
  cases po with
  | none => exact ⟨r, hr⟩
  | some p =>
    cases hp : p q with
    | raised =>
      refine ⟨r, ?_⟩
      simp [fetch_tier, tryExceptContinue, fetch_tier_body, hp, hr]
    | ok urls =>
      cases urls with
      | nil =>
        refine ⟨r, ?_⟩
        simp [fetch_tier, tryExceptContinue, fetch_tier_body, hp, hr]
      | cons u rest =>
        refine ⟨(some u, tag), ?_⟩
        simp [fetch_tier, tryExceptContinue, fetch_tier_body, hp, pyIndex]

/-- C4: for every segment and every acquisition path (video, image or
placeholder), the clip appended to the timeline has duration exactly the
segment's clamped duration max(0.1, end - start), because the loop appends
clip.set_duration(seg.dur). -/
theorem c4_appended_clip_duration (env : MediaEnv) (seg : Segment) (subs : Bool)
    (url : Option String) (ty : String) :
    (appended_clip env seg subs url ty).duration = seg.dur ∧
    seg.dur = max (1/10) (seg.stop - seg.start) :=
  ⟨rfl, rfl⟩

/-- C3: the reconciliation step forces the assembled timeline to the
narration duration exactly: a longer timeline is truncated from the start, a
shorter one is extended with a solid black filler of exactly the missing
duration, and an equal one is left unchanged. -/
theorem c3_reconcile_duration (video : Clip) (total_dur : ℚ) (w h : Nat) :
    (reconcile_duration video total_dur w h).1.duration = total_dur ∧
    (total_dur < video.duration →
      reconcile_duration video total_dur w h = (subclip video 0 total_dur, ReconStep.trimmed)) ∧
    (video.duration < total_dur →
      reconcile_duration video total_dur w h =
        (concat_clips [video, color_clip w h ⟨0, 0, 0⟩ (total_dur - video.duration)],
         ReconStep.padded ⟨0, 0, 0⟩ (total_dur - video.duration))) ∧
    (video.duration = total_dur →
      reconcile_duration video total_dur w h = (video, ReconStep.unchanged)) := by
  refine ⟨?_, ?_, ?_, ?_⟩
  · rcases lt_trichotomy video.duration total_dur with hlt | heq | hgt
    · simp only [reconcile_duration, not_lt.mpr hlt.le, hlt, if_true, if_false,
        gt_iff_lt, concat_clips, color_clip, List.map_cons, List.map_nil, List.sum_cons,
        List.sum_nil]
      ring
    · simp [reconcile_duration, heq]
    · simp [reconcile_duration, hgt, subclip]
  · intro hgt
    simp [reconcile_duration, hgt]
  · intro hlt
    simp [reconcile_duration, not_lt.mpr hlt.le, hlt]
  · intro heq
    simp [reconcile_duration, heq]

theorem c3_reconcile_duration_witness :
    (reconcile_duration ⟨1920, 1080, 10, 0, 0⟩ 7 1920 1080).1.duration = 7 ∧
    reconcile_duration ⟨1920, 1080, 10, 0, 0⟩ 7 1920 1080
      = (subclip ⟨1920, 1080, 10, 0, 0⟩ 0 7, ReconStep.trimmed) :=
  ⟨(c3_reconcile_duration ⟨1920, 1080, 10, 0, 0⟩ 7 1920 1080).1,
   (c3_reconcile_duration ⟨1920, 1080, 10, 0, 0⟩ 7 1920 1080).2.1 (by norm_num)⟩

/-- C9: the pipeline-level minimum-duration clamp pass keeps the list length;
a segment at or above the minimum passes through unchanged, and a shorter one
is replaced by a segment identical in index, start and text whose end is
start + minimum. -/
theorem c9_min_seg_clamp (m : ℚ) (segs : List Segment) (i : Nat) (s : Segment)
    (h : segs[i]? = some s) :
    (clamp_min_seg m segs).length = segs.length ∧
    (clamp_min_seg m segs)[i]? =
      some (if s.stop - s.start < m then ⟨s.idx, s.start, s.start + m, s.text⟩ else s) ∧
    (m ≤ s.stop - s.start → (clamp_min_seg m segs)[i]? = some s) := by
  refine ⟨by simp [clamp_min_seg], ?_, ?_⟩
  · simp [clamp_min_seg, List.getElem?_map, h, clamp_segment]
  · intro hm
    simp [clamp_min_seg, List.getElem?_map, h, clamp_segment, not_lt.mpr hm]

theorem c9_min_seg_clamp_witness :
    (clamp_min_seg (1/2) [(⟨0, 0, 1/4, "hi"⟩ : Segment), ⟨1, 0, 2, "ok"⟩]).length = 2 ∧
    (clamp_min_seg (1/2) [(⟨0, 0, 1/4, "hi"⟩ : Segment), ⟨1, 0, 2, "ok"⟩])[0]? =
      some ⟨0, 0, 0 + 1/2, "hi"⟩ := by
  have h := c9_min_seg_clamp (1/2) [(⟨0, 0, 1/4, "hi"⟩ : Segment), ⟨1, 0, 2, "ok"⟩] 0
    ⟨0, 0, 1/4, "hi"⟩ rfl
  refine ⟨h.1, ?_⟩
  rw [h.2.1, if_pos (by norm_num)]

/-- C5: the crossfade overlap at a boundary equals
min(6/fps, 0.25, 0.25 prev, 0.25 next); it is never negative, never above
0.25 s and never above a quarter of either neighbour's duration, and a
sub-frame overlap degrades the boundary to plain concatenation with no fade
applied to either clip. -/
theorem c5_crossfade_overlap (fps : ℚ) (a nxt : Clip) (earlier : List Clip)
    (hfps : 0 < fps) (hdp : 0 ≤ a.duration) (hdn : 0 ≤ nxt.duration) :
    safe_overlap fps a.duration nxt.duration
      = min (min (min ((6 : ℚ) / fps) (1/4)) (a.duration * (1/4))) (nxt.duration * (1/4)) ∧
    0 ≤ safe_overlap fps a.duration nxt.duration ∧
    safe_overlap fps a.duration nxt.duration ≤ 1/4 ∧
    safe_overlap fps a.duration nxt.duration ≤ a.duration * (1/4) ∧
    safe_overlap fps a.duration nxt.duration ≤ nxt.duration * (1/4) ∧
    (safe_overlap fps a.duration nxt.duration < 1 / fps →
      transition_step fps (a :: earlier) nxt = nxt :: a :: earlier) ∧
    (¬ safe_overlap fps a.duration nxt.duration < 1 / fps →
      transition_step fps (a :: earlier) nxt =
        crossfadein nxt (safe_overlap fps a.duration nxt.duration)
          :: crossfadeout a (safe_overlap fps a.duration nxt.duration) :: earlier) := by
  refine ⟨rfl, ?_, ?_, ?_, ?_, ?_, ?_⟩
  · refine le_min (le_min (le_min ?_ ?_) ?_) ?_
    · positivity
    · norm_num
    · linarith
    · linarith
  · exact le_trans (le_trans (min_le_left _ _) (min_le_left _ _)) (min_le_right _ _)
  · exact le_trans (min_le_left _ _) (min_le_right _ _)
  · exact min_le_right _ _
  · intro hlt
    simp only [transition_step]
    rw [if_pos hlt]
  · intro hge
    simp only [transition_step]
    rw [if_neg hge]

theorem c5_crossfade_overlap_witness :
    0 ≤ safe_overlap 30 (2 : ℚ) 3 ∧
    transition_step 30 [(⟨1920, 1080, 2, 0, 0⟩ : Clip)] ⟨1920, 1080, 3, 0, 0⟩ =
      [crossfadein ⟨1920, 1080, 3, 0, 0⟩ (safe_overlap 30 2 3),
       crossfadeout ⟨1920, 1080, 2, 0, 0⟩ (safe_overlap 30 2 3)] := by
  have h := c5_crossfade_overlap 30 ⟨1920, 1080, 2, 0, 0⟩ ⟨1920, 1080, 3, 0, 0⟩ []
    (by norm_num) (by norm_num) (by norm_num)
  exact ⟨h.2.1, h.2.2.2.2.2.2 (by norm_num [safe_overlap])⟩

/-- C6: for a valid video asset longer than the clamped segment duration by
more than 0.2 s, the extension pass is a no-op and the cut step takes a
window of length exactly segDur whose random start offset lies in
[0, duration - segDur]; an asset whose duration exceeds the segment by at
most 0.2 s is used whole with no subclipping. -/
theorem c6_random_window (baseDur segDur : ℚ) (rand_uniform : ℚ → ℚ)
    (hrand : ∀ m, 0 ≤ m → 0 ≤ rand_uniform m ∧ rand_uniform m ≤ m) :
    (segDur + 1/5 < baseDur →
      extend_clip_to_duration baseDur segDur = baseDur ∧
      cut_to_segment baseDur segDur rand_uniform
        = CutChoice.window (rand_uniform (baseDur - segDur)) segDur ∧
      0 ≤ rand_uniform (baseDur - segDur) ∧
      rand_uniform (baseDur - segDur) ≤ baseDur - segDur) ∧
    (baseDur ≤ segDur + 1/5 →
      cut_to_segment baseDur segDur rand_uniform = CutChoice.whole baseDur) := by
  constructor
  · intro hgt
    have hnn : (0 : ℚ) ≤ baseDur - segDur := by linarith
    have hmax : max 0 (baseDur - segDur) = baseDur - segDur := max_eq_right hnn
    refine ⟨?_, ?_, (hrand _ hnn).1, (hrand _ hnn).2⟩
    · unfold extend_clip_to_duration
      rw [if_pos (by linarith : baseDur ≥ segDur)]
    · unfold cut_to_segment
      rw [if_neg (not_le.mpr hgt), hmax]
  · intro hle
    unfold cut_to_segment
    rw [if_pos hle]

theorem c6_random_window_witness :
    cut_to_segment 20 5 (fun m => m / 2) = CutChoice.window ((20 - 5) / 2) 5 ∧
    0 ≤ ((20 : ℚ) - 5) / 2 ∧ ((20 : ℚ) - 5) / 2 ≤ 20 - 5 := by
  have h := (c6_random_window 20 5 (fun m => m / 2)
    (fun m hm => ⟨by linarith, by linarith⟩)).1 (by norm_num)
  exact ⟨h.2.1, h.2.2.1, h.2.2.2⟩

/-- C8: a failing individual source call is caught inside fetch_asset_url and
behaves exactly like a source returning zero candidates, advancing to the
next tier; no error ever propagates to the caller, and when every tier yields
nothing the resolver returns the (None, "none") result; PexelsProvider.search
itself also maps any request or parse error to zero candidates. -/
theorem c8_source_error_policy (query : String)
    (primary fallback image_fb : Option Provider) :
    (∃ r, fetch_asset_url query primary fallback image_fb = Except.ok r) ∧
    (∀ fb ifb, fetch_asset_url query (some (fun _ => SearchOutcome.raised)) fb ifb
        = fetch_asset_url query (some (fun _ => SearchOutcome.ok [])) fb ifb) ∧
    (∀ ifb, fetch_asset_url query primary (some (fun _ => SearchOutcome.raised)) ifb
        = fetch_asset_url query primary (some (fun _ => SearchOutcome.ok [])) ifb) ∧
    (fetch_asset_url query primary fallback (some (fun _ => SearchOutcome.raised))
        = fetch_asset_url query primary fallback (some (fun _ => SearchOutcome.ok []))) ∧
    (fetch_asset_url query (some (fun _ => SearchOutcome.raised))
        (some (fun _ => SearchOutcome.raised)) (some (fun _ => SearchOutcome.raised))
        = Except.ok (none, "none")) ∧
    (∀ e, pexels_search (Except.error e) = []) := by
  refine ⟨?_, fun fb ifb => rfl, fun ifb => rfl, rfl, rfl, fun e => rfl⟩
  exact fetch_tier_ok query primary "video"
    (fetch_tier query fallback "video"
      (fetch_tier query image_fb "image" (Except.ok (none, "none"))))
    (fetch_tier_ok query fallback "video"
      (fetch_tier query image_fb "image" (Except.ok (none, "none")))
      (fetch_tier_ok query image_fb "image" (Except.ok (none, "none"))
        ⟨(none, "none"), rfl⟩))

/-- C2: build_video passes five positional arguments to the four-parameter
fetch_asset_url, so with at least one segment the first per-segment
resolution raises TypeError; the call site is not inside any handler, so the
error aborts the segment loop and propagates out of the visual pipeline
instead of degrading the segment to a placeholder clip. -/
theorem c2_fetch_call_type_error (env : MediaEnv) (subs transitions : Bool)
    (fps narration_dur : ℚ) (queryOf : Segment → String) (simplifyOf : String → String)
    (segs : List Segment) (h : segs ≠ []) :
    acceptsPositional fetch_asset_url_sig build_video_fetch_nargs = false ∧
    build_video_clips env subs queryOf simplifyOf segs = Except.error PyErr.typeError ∧
    build_video_visual env subs transitions fps narration_dur queryOf simplifyOf segs
      = Except.error PyErr.typeError := by
  obtain ⟨s, rest, rfl⟩ := List.exists_cons_of_ne_nil h
  have hclips : build_video_clips env subs queryOf simplifyOf (s :: rest)
      = Except.error PyErr.typeError := by
    simp [build_video_clips, process_segment, pyCallE, acceptsPositional,
      fetch_asset_url_sig, build_video_fetch_nargs, Bind.bind, Except.bind]
  refine ⟨rfl, hclips, ?_⟩
  simp [build_video_visual, hclips, Bind.bind, Except.bind]

theorem c2_fetch_call_type_error_witness :
    build_video_clips
      ⟨none, none, none, fun _ => true, fun _ => true, fun _ => 0, fun _ => 0, 1920, 1080⟩
      true (fun _ => "query") (fun q => q) [⟨0, 0, 1, "hi"⟩]
      = Except.error PyErr.typeError :=
  (c2_fetch_call_type_error
    ⟨none, none, none, fun _ => true, fun _ => true, fun _ => 0, fun _ => 0, 1920, 1080⟩
    true false 30 10 (fun _ => "query") (fun q => q) [⟨0, 0, 1, "hi"⟩]
    (by simp)).2.1

/-- C1: the committed fetch_asset_url neither receives nor updates the shared
usedURLs set: it deterministically returns the first candidate of the first
non-empty tier, so repeated resolutions of a query whose pool is
u1, u2, u3 all yield u1 (segments 2 and 3 repeat segment 1's locator while
u2 and u3 are unused, contradicting the claimed distinctness), and the
five-argument call build_video actually makes is rejected by the
four-parameter signature. -/
theorem c1_resolver_ignores_used_urls :
    fetch_asset_url "query" (some (fun _ => SearchOutcome.ok ["u1", "u2", "u3"])) none none
      = Except.ok (some "u1", "video") ∧
    (∀ q2, fetch_asset_url q2 (some (fun _ => SearchOutcome.ok ["u1", "u2", "u3"])) none none
      = Except.ok (some "u1", "video")) ∧
    acceptsPositional fetch_asset_url_sig build_video_fetch_nargs = false :=
  ⟨rfl, fun _ => rfl, rfl⟩

/-- C10: a background track shorter than the target is looped whole-track
int(target/duration)+1 times, which covers the target, then trimmed to
exactly the target; a track at least as long is trimmed to exactly the
target; in both cases the background gain is scaled by music_volume and the
narration passes through unscaled. -/
theorem c10_background_music_mix (narration bg : AudioTrack)
    (total_dur music_volume : ℚ) (hd : 0 < bg.duration) (ht : 0 ≤ total_dur) :
    (mix_background_music narration bg total_dur music_volume).background.duration
      = total_dur ∧
    (mix_background_music narration bg total_dur music_volume).background.gain
      = bg.gain * music_volume ∧
    (mix_background_music narration bg total_dur music_volume).narration = narration ∧
    (bg.duration < total_dur →
      (mix_background_music narration bg total_dur music_volume).loops
          = (Int.floor (total_dur / bg.duration)).toNat + 1 ∧
      (mix_background_music narration bg total_dur music_volume).looped_len
          = (((Int.floor (total_dur / bg.duration)).toNat + 1 : ℕ) : ℚ) * bg.duration ∧
      total_dur ≤ (mix_background_music narration bg total_dur music_volume).looped_len) ∧
    (total_dur ≤ bg.duration →
      (mix_background_music narration bg total_dur music_volume).looped_len
        = bg.duration) := by
  by_cases hcase : bg.duration < total_dur
  · have hq : (0 : ℤ) ≤ Int.floor (total_dur / bg.duration) :=
      Int.floor_nonneg.mpr (div_nonneg ht hd.le)
    have hcover : total_dur
        ≤ (((Int.floor (total_dur / bg.duration)).toNat + 1 : ℕ) : ℚ) * bg.duration := by
      have h1 : total_dur / bg.duration < (Int.floor (total_dur / bg.duration) : ℚ) + 1 :=
        Int.lt_floor_add_one _
      have h2 : total_dur < ((Int.floor (total_dur / bg.duration) : ℚ) + 1) * bg.duration := by
        rw [div_lt_iff₀ hd] at h1
        linarith
      have h3 : (((Int.floor (total_dur / bg.duration)).toNat + 1 : ℕ) : ℚ)
          = (Int.floor (total_dur / bg.duration) : ℚ) + 1 := by
        have h4 : (((Int.floor (total_dur / bg.duration)).toNat + 1 : ℕ) : ℤ)
            = Int.floor (total_dur / bg.duration) + 1 := by
          push_cast [Int.toNat_of_nonneg hq]
          ring
        exact_mod_cast congrArg (fun z : ℤ => (z : ℚ)) h4
      rw [h3]
      exact h2.le
    refine ⟨?_, ?_, ?_, fun _ => ⟨?_, ?_, ?_⟩, fun hle => absurd hcase (not_lt.mpr hle)⟩
    · simp [mix_background_music, hcase, volumex, audio_subclip, loop_audio]
    · simp [mix_background_music, hcase, volumex, audio_subclip, loop_audio]
    · simp [mix_background_music, hcase]
    · simp [mix_background_music, hcase]
    · simp [mix_background_music, hcase, loop_audio]
    · simpa [mix_background_music, hcase, loop_audio] using hcover
  · refine ⟨?_, ?_, ?_, fun hlt => absurd hlt hcase, fun _ => ?_⟩
    · simp [mix_background_music, hcase, volumex, audio_subclip]
    · simp [mix_background_music, hcase, volumex, audio_subclip]
    · simp [mix_background_music, hcase]
    · simp [mix_background_music, hcase]

theorem c10_background_music_mix_witness :
    (mix_background_music ⟨10, 1⟩ ⟨3, 1⟩ 10 (1/10)).background.duration = 10 ∧
    (mix_background_music ⟨10, 1⟩ ⟨3, 1⟩ 10 (1/10)).background.gain = 1 * (1/10) ∧
    (mix_background_music ⟨10, 1⟩ ⟨3, 1⟩ 10 (1/10)).loops
      = (Int.floor ((10 : ℚ) / 3)).toNat + 1 ∧
    (10 : ℚ) ≤ (mix_background_music ⟨10, 1⟩ ⟨3, 1⟩ 10 (1/10)).looped_len := by
  have h := c10_background_music_mix ⟨10, 1⟩ ⟨3, 1⟩ 10 (1/10) (by norm_num) (by norm_num)
  have hb := h.2.2.2.1 (by norm_num)
  exact ⟨h.1, h.2.1, hb.1, hb.2.2⟩

/-- C7 counterexample: at frame width 11 the overlay box for the one-character
text a is 10 px wide, which exceeds 90 percent of the frame width (9.9 px);
the claim that the box width never exceeds 90 percent of the frame width is
therefore false as stated. -/
theorem c7_width_counterexample :
    make_subtitle_clip ⟨fun _ => 0, 8, 2⟩ "a" 11 100 = SubtitleClip.overlay 10 54 82 ∧
    ¬ ((10 : ℚ) ≤ 9 * 11 / 10) :=
  ⟨by decide, by norm_num⟩

/-- C7 amended: blank text yields no overlay; any produced overlay box is at
least 2 px in each dimension and its width never exceeds
max(10, int(0.9 w)) - hence never exceeds 90 percent of the frame width
whenever the frame is at least 12 px wide. -/
theorem c7_subtitle_box (font : FontInfo) (text : String) (w h : Nat) :
    ((text = "" ∨ py_strip text = "") →
      make_subtitle_clip font text w h = SubtitleClip.noOverlay) ∧
    (∀ bw bh py, make_subtitle_clip font text w h = SubtitleClip.overlay bw bh py →
      2 ≤ bw ∧ 2 ≤ bh ∧ bw ≤ max 10 ((9 * (w : ℤ)) / 10) ∧
      (12 ≤ w → (bw : ℚ) ≤ 9 * (w : ℚ) / 10)) := by
  constructor
  · intro hb
    simp [make_subtitle_clip, hb]
  · intro bw bh py hov
    by_cases hb : text = "" ∨ py_strip text = ""
    · simp [make_subtitle_clip, hb] at hov
    · simp only [make_subtitle_clip] at hov
      rw [if_neg hb] at hov
      injection hov with h1 h2 h3
      have hbw : bw = max 2 (min (max 10 ((9 * (w : ℤ)) / 10))
          ((wrap_lines font.measure text ((max 10 ((9 * (w : ℤ)) / 10) : ℤ) : ℚ)).foldl
            (fun acc ln => max acc (pyInt (font.measure ln))) 0 + 2 * 22)) := h1.symm
      have hbw_le : bw ≤ max 10 ((9 * (w : ℤ)) / 10) := by
        rw [hbw]
        exact max_le (le_trans (by norm_num) (le_max_left _ _)) (min_le_left _ _)
      refine ⟨by rw [hbw]; exact le_max_left _ _, by rw [← h2]; exact le_max_left _ _,
        hbw_le, ?_⟩
      intro hw
      have h9w : (10 : ℤ) ≤ (9 * (w : ℤ)) / 10 := by
        have h12 : (12 : ℤ) ≤ (w : ℤ) := by exact_mod_cast hw
        omega
      have hmax : max 10 ((9 * (w : ℤ)) / 10) = (9 * (w : ℤ)) / 10 := max_eq_right h9w
      have hint : bw ≤ (9 * (w : ℤ)) / 10 := hmax ▸ hbw_le
      have hdiv : (10 : ℤ) * ((9 * (w : ℤ)) / 10) ≤ 9 * (w : ℤ) := by omega
      have hq : ((bw : ℚ)) ≤ (((9 * (w : ℤ)) / 10 : ℤ) : ℚ) := by exact_mod_cast hint
      have hq2 : (((9 * (w : ℤ)) / 10 : ℤ) : ℚ) ≤ 9 * (w : ℚ) / 10 := by
        rw [le_div_iff₀ (by norm_num : (0 : ℚ) < 10)]
        have hdq : ((10 : ℤ) : ℚ) * (((9 * (w : ℤ)) / 10 : ℤ) : ℚ)
            ≤ ((9 * (w : ℤ) : ℤ) : ℚ) := by exact_mod_cast hdiv
        push_cast at hdq
        linarith
      linarith

theorem c7_subtitle_box_witness :
    make_subtitle_clip ⟨fun _ => 0, 8, 2⟩ " " 11 100 = SubtitleClip.noOverlay ∧
    ((2 : ℤ) ≤ 44 ∧ (2 : ℤ) ≤ 54 ∧ (44 : ℤ) ≤ max 10 ((9 * ((100 : ℕ) : ℤ)) / 10) ∧
      (12 ≤ (100 : ℕ) → (((44 : ℤ)) : ℚ) ≤ 9 * ((100 : ℕ) : ℚ) / 10)) := by
  constructor
  · exact (c7_subtitle_box ⟨fun _ => 0, 8, 2⟩ " " 11 100).1 (Or.inr (by decide))
  · exact (c7_subtitle_box ⟨fun _ => 0, 8, 2⟩ "a" 100 100).2 44 54 82 (by decide)

end YTAuto
